import Mathlib

/-!
# Verification of the Snowman tap-to-earn backend

Shallow embedding of the economy / anti-cheat core of the repository
(`backend.py`, the Flask + Firebase server, and `main.py`, the aiogram bot
with a JSON-file store), together with theorems settling the frozen claims
about it.

Conventions of the embedding:
* Firebase user documents (`backend.py`) are records of optional fields
  (`BUser`), mirroring Python `dict.get(key, default)` access; the store is
  a partial map from user-id strings to documents.
* Machine integers are `Int`; wall-clock times are `Int` seconds or
  milliseconds as in the source; Python floats that hold exact decimal game
  amounts (TON balances, main.py balances) are modelled as `ℚ`.
* `random.choices` in the spin wheel is modelled by passing the chosen
  index (always in `0..7` in the source) as an explicit argument.
* The `try/except: pass` around the referral-commission transaction is
  modelled by a boolean `commissionFails` input: `true` means the store
  write raised and was swallowed.
* `int(earned * 0.10)` (float multiply then truncation toward zero, applied
  only when `earned > 10`) is modelled as integer division `earned / 10`.
-/

namespace Snowman

namespace Backend

/-- A Firebase user document under `users/{uid}` as read/written by
`backend.py`.  Every field is optional, mirroring `dict.get` semantics. -/
structure BUser where
  balance : Option Int := none
  tonBalance : Option ℚ := none
  level : Option Int := none
  tapCount : Option Int := none
  last_sync : Option Int := none
  boosterEndTime : Option Int := none
  autotapEndTime : Option Int := none
  lastSpinTime : Option Int := none
  referredBy : Option String := none
  deriving DecidableEq

/-- The Firebase realtime database restricted to the `users/` tree. -/
def Store : Type := String → Option BUser

/-- Response of the `/sync_taps` endpoint. -/
inductive SyncResult where
  | unauthorized
  | notFound
  | rejected (balance : Int)
  | ok (balance : Int)
  deriving DecidableEq

/-- `db.reference(f'users/{rid}/balance').transaction(lambda current: (current or 0) + c)`:
an upsert that creates the node when absent. -/
def creditBalance (store : Store) (rid : String) (c : Int) : Store :=
  fun k =>
    if k = rid then
      some (match store rid with
        | some u => { u with balance := some (u.balance.getD 0 + c) }
        | none => { balance := some c })
    else store k

/-- `multiplier = 2 if user_db.get('boosterEndTime', 0) > current_time * 1000
else 1` (`backend.py` lines 191-193): `now` is in seconds, the stored expiry
in milliseconds. -/
def tapMultiplier (now : Int) (u : BUser) : Int :=
  if u.boosterEndTime.getD 0 > now * 1000 then 2 else 1

/-- `max_possible = (current_time - user_db.get('last_sync', current_time - 5)) * 15 + 50`
(`backend.py` lines 186-196). -/
def tapCap (now : Int) (u : BUser) : Int :=
  (now - u.last_sync.getD (now - 5)) * 15 + 50

/-- The referral-commission side-mutation of `/sync_taps` (`backend.py`
lines 211-220): when the referee has a truthy `referredBy` and
`earned_coins > 10`, a positive `commission = int(earned_coins * 0.10)` is
added to `users/{referrer}/balance` by a Firebase transaction (an upsert).
`commissionFails = true` models the transaction raising; the exception is
swallowed (`except: pass`), leaving the store unchanged. -/
def commissionStore (store : Store) (referredBy : Option String) (earned_coins : Int)
    (commissionFails : Bool) : Store :=
  match referredBy with
  | some rid =>
    if rid ≠ "" ∧ earned_coins > 10 then
      if earned_coins / 10 > 0 then
        if commissionFails then store else creditBalance store rid (earned_coins / 10)
      else store
    else store
  | none => store

/-- The `/sync_taps` handler of `backend.py` (lines 167-229), after identity
verification has succeeded and yielded `uid`.  `now` is `int(time.time())`
in seconds.  `commissionFails` models a raised-and-swallowed store error in
the referral-commission transaction.  The final `ref.update` merges
`balance`, `last_sync` and `tapCount` (values computed from the initial
read `u`) into the document as left by the commission transaction. -/
def sync_taps (now : Int) (store : Store) (uid : String) (taps : Int)
    (commissionFails : Bool) : SyncResult × Store :=
  match store uid with
  | none => (SyncResult.notFound, store)
  | some u =>
    if taps > tapCap now u then
      (SyncResult.rejected (u.balance.getD 0), store)
    else
      let earned_coins := taps * u.level.getD 1 * tapMultiplier now u
      let new_balance := u.balance.getD 0 + earned_coins
      let store1 := commissionStore store u.referredBy earned_coins commissionFails
      let store2 : Store := fun k =>
        if k = uid then
          some { (store1 uid).getD {} with
                   balance := some new_balance
                   last_sync := some now
                   tapCount := some (u.tapCount.getD 0 + taps) }
        else store1 k
      (SyncResult.ok new_balance, store2)

/-- Catalog entry kinds in `SHOP_ITEMS` of `backend.py`. -/
inductive ItemType where
  | coin
  | booster
  | autotap
  deriving DecidableEq

/-- A `SHOP_ITEMS` catalog entry of `backend.py`: `stars` price and either a
coin `reward` or a perk `duration` in days. -/
structure ShopItem where
  stars : Int
  type : ItemType
  reward : Int := 0
  duration : Int := 0
  deriving DecidableEq

/-- The `SHOP_ITEMS` dictionary of `backend.py` (lines 51-63). -/
def SHOP_ITEMS : String → Option ShopItem := fun id =>
  if id = "coin_starter" then some { stars := 10, type := ItemType.coin, reward := 5000 }
  else if id = "coin_small" then some { stars := 20, type := ItemType.coin, reward := 10000 }
  else if id = "coin_medium" then some { stars := 60, type := ItemType.coin, reward := 40000 }
  else if id = "coin_large" then some { stars := 120, type := ItemType.coin, reward := 100000 }
  else if id = "coin_mega" then some { stars := 220, type := ItemType.coin, reward := 220000 }
  else if id = "booster_3d" then some { stars := 20, type := ItemType.booster, duration := 3 }
  else if id = "booster_15d" then some { stars := 70, type := ItemType.booster, duration := 15 }
  else if id = "booster_30d" then some { stars := 120, type := ItemType.booster, duration := 30 }
  else if id = "autotap_1d" then some { stars := 20, type := ItemType.autotap, duration := 1 }
  else if id = "autotap_7d" then some { stars := 80, type := ItemType.autotap, duration := 7 }
  else if id = "autotap_30d" then some { stars := 200, type := ItemType.autotap, duration := 30 }
  else none

/-- The `SPIN_PRIZES` list of `backend.py` (TON amounts, floats modelled as
exact rationals). -/
def SPIN_PRIZES : List ℚ := [1/100, 1/10, 1/2, 1, 5, 10, 1/20, 1/5]

/-- The `SPIN_WEIGHTS` list of `backend.py` (relative weights for
`random.choices`; fractional values allowed). -/
def SPIN_WEIGHTS : List ℚ := [40, 25, 10, 5, 1, 1/2, 15, 7/2]

/-- Milliseconds in one day, `24 * 60 * 60 * 1000`. -/
def dayMs : Int := 86400000

/-- `update_user_perks(user_id, item_id)` of `backend.py` (lines 105-128):
looks the item up in the catalog and applies a coin grant or a timed-perk
expiry extension to the user's document; `ref.get() or {}` means a missing
document is treated as empty.  Returns the updated store and the function's
boolean result.  `applyItem` is the `updates` dictionary computed from the
item's type: a coin grant or a timed-perk expiry extension starting from
`max(now_ms, current_end)`. -/
def applyItem (now_ms : Int) (item : ShopItem) (data : BUser) : BUser :=
  match item.type with
  | ItemType.coin =>
    { data with balance := some (data.balance.getD 0 + item.reward) }
  | ItemType.booster =>
    { data with boosterEndTime := some (max now_ms (data.boosterEndTime.getD 0) + item.duration * dayMs) }
  | ItemType.autotap =>
    { data with autotapEndTime := some (max now_ms (data.autotapEndTime.getD 0) + item.duration * dayMs) }

/-- `update_user_perks(user_id, item_id)` of `backend.py` (continued): the
store transition and boolean result. -/
def update_user_perks (now_ms : Int) (store : Store) (uid : String) (item_id : String) :
    Store × Bool :=
  match SHOP_ITEMS item_id with
  | none => (store, false)
  | some item =>
    let data := (store uid).getD {}
    let store' : Store := fun k =>
      if k = uid then some (applyItem now_ms item data) else store k
    (store', true)

/-- Split a character list at the first occurrence of `sep` (fuel-bounded
structural recursion; `fuel = s.length + 1` always suffices).  `none` when
`sep` does not occur. -/
def findSplit (sep : List Char) : Nat → List Char → Option (List Char × List Char)
  | 0, _ => none
  | fuel + 1, s =>
    if sep.isPrefixOf s then some ([], s.drop sep.length)
    else
      match s with
      | [] => none
      | c :: cs => (findSplit sep fuel cs).map (fun p => (c :: p.1, p.2))

/-- Python `s.split(sep)` (unlimited splits) on character lists,
fuel-bounded. -/
def splitAll (sep : List Char) : Nat → List Char → List (List Char)
  | 0, s => [s]
  | fuel + 1, s =>
    match findSplit sep (s.length + 1) s with
    | none => [s]
    | some (l, r) => l :: splitAll sep fuel r

/-- Python `s.split(sep, 1)` followed by a two-element tuple unpacking:
`none` when the separator is absent (the unpacking raises `ValueError`). -/
def splitOnce (s sep : String) : Option (String × String) :=
  (findSplit sep.data (s.data.length + 1) s.data).map
    (fun p => (String.mk p.1, String.mk p.2))

/-- Python `s.split(sep)` on strings. -/
def pySplit (s sep : String) : List String :=
  (splitAll sep.data (s.data.length + 1) s.data).map String.mk

/-- Python `s.startswith(pre)`. -/
def pyStartsWith (s pre : String) : Bool :=
  pre.data.isPrefixOf s.data

/-- Join character lists with a separator (Python `sep.join`). -/
def joinSep (sep : List Char) : List (List Char) → List Char
  | [] => []
  | [l] => l
  | l :: ls => l ++ sep ++ joinSep sep ls

/-- Python `sep.join(xs)` on strings. -/
def pyJoin (sep : String) (xs : List String) : String :=
  String.mk (joinSep sep.data (xs.map String.data))

/-- Lexicographic (code-point) comparison of character lists, as Python
compares strings. -/
def lexLe : List Char → List Char → Bool
  | [], _ => true
  | _ :: _, [] => false
  | a :: as, b :: bs => if a = b then lexLe as bs else decide (a < b)

/-- The successful-payment branch of the `/webhook` handler of `backend.py`
(lines 310-317): split the invoice payload at the FIRST `_`, look the left
part up as an item id and apply it to the right part as a user id; any
exception (including a failed unpack) is swallowed.  Returns the store and
whether `update_user_perks` reported success. -/
def handle_successful_payment (now_ms : Int) (store : Store) (data : String) :
    Store × Bool :=
  match splitOnce data "_" with
  | none => (store, false)
  | some (item_id, uid) => update_user_perks now_ms store uid item_id

/-- Response of the `/spin_wheel` endpoint of `backend.py`. -/
inductive SpinResult where
  | cooldown
  | ok (index : Nat) (prize : ℚ) (new_ton : ℚ)
  deriving DecidableEq

/-- The `/spin_wheel` handler of `backend.py` (lines 232-268) after identity
verification yielded `uid`.  `now_ms` is `int(time.time() * 1000)`;
`chosen_index` is the value produced by
`random.choices(range(8), weights=SPIN_WEIGHTS, k=1)[0]`, always in `0..7`. -/
def spin_wheel_secure (now_ms : Int) (store : Store) (uid : String)
    (chosen_index : Fin 8) : SpinResult × Store :=
  let u := (store uid).getD {}
  let last_spin := u.lastSpinTime.getD 0
  if now_ms - last_spin < 86400000 then
    (SpinResult.cooldown, store)
  else
    let prize_amount := SPIN_PRIZES.getD chosen_index.val 0
    let new_ton := u.tonBalance.getD 0 + prize_amount
    let store' : Store := fun k =>
      if k = uid then
        some { u with tonBalance := some new_ton, lastSpinTime := some now_ms }
      else store k
    (SpinResult.ok chosen_index.val prize_amount new_ton, store')

/-- Insertion of a string into a `lexLe`-sorted list (helper for the
lexicographic `sorted(...)` of Python). -/
def insertStr (s : String) : List String → List String
  | [] => [s]
  | t :: ts => if lexLe s.data t.data then s :: t :: ts else t :: insertStr s ts

/-- Python `sorted` on a list of strings (lexicographic by code point). -/
def sortStrs : List String → List String
  | [] => []
  | s :: ss => insertStr s (sortStrs ss)

/-- `data_check_string` of `verify_telegram_data` (`backend.py` lines 83-84):
all `&`-separated parts except those starting with `hash=`, sorted
lexicographically and newline-joined. -/
def dataCheckString (parsed_data : String) : String :=
  pyJoin "\n"
    (sortStrs ((pySplit parsed_data "&").filter (fun p => ! pyStartsWith p "hash=")))

/-- `verify_telegram_data(init_data)` of `backend.py` (lines 69-96).  The
input is `parsed_data = unquote(init_data)` (URL decoding is outside the
model).  The HMAC-SHA256 chain (derive secret from the bot token, hash the
check string) is abstracted as `calcHash`; `json.loads` of the embedded user
blob is abstracted as `parseUser`, returning `none` on a parse failure.
`botTokenSet` models `if not BOT_TOKEN: return None`.  Every exception path
of the source returns `None` (the body is wrapped in `try/except`, and a
missing `user=` part makes `user_part.split` raise, caught to `None`), so
the embedding is a total function into `Option α`: a pure message-integrity
check with no store access. -/
def verify_telegram_data {α : Type} (botTokenSet : Bool)
    (calcHash : String → String) (parseUser : String → Option α)
    (parsed_data : String) : Option α :=
  if botTokenSet = false then none
  else
    let data_parts := pySplit parsed_data "&"
    match data_parts.find? (fun p => pyStartsWith p "hash=") with
    | none => none
    | some hash_part =>
      let received_hash := (pySplit hash_part "=").getD 1 ""
      if calcHash (dataCheckString parsed_data) ≠ received_hash then none
      else
        match data_parts.find? (fun p => pyStartsWith p "user=") with
        | none => none
        | some user_part => parseUser ((pySplit user_part "user=").getD 1 "")

end Backend

namespace Main

/-- `GameConfig.INITIAL_BALANCE` of `main.py`. -/
def INITIAL_BALANCE : ℚ := 500

/-- `GameConfig.REFERRAL_BONUS` of `main.py`. -/
def REFERRAL_BONUS : ℚ := 5000

/-- A user object of the JSON-file database of `main.py`, as produced by
`DatabaseManager._get_default_schema` (every record in this store is created
through the schema, so fields are present).  Floats carrying decimal game
amounts are modelled as `ℚ`; timestamps as `Int` seconds. -/
structure MUser where
  username : String := ""
  first_name : String := ""
  balance : ℚ := INITIAL_BALANCE
  tonBalance : ℚ := 0
  level : Int := 1
  currentLevelScore : ℚ := 0
  tapCount : Int := 0
  referrals : List String := []
  referredBy : Option String := none
  joined_date : Int := 0
  last_active : Int := 0
  is_blocked : Bool := false
  booster_end : Option Int := none
  autotap_end : Option Int := none
  deriving DecidableEq

/-- The JSON-file database `users.json` of `main.py`. -/
def MStore : Type := String → Option MUser

/-- `DatabaseManager.register_user` of `main.py` (lines 328-362): registers
a new user and handles the referral bonus.  `referrer_id = none` models the
Python `None` argument; the Python truthiness test `if referrer_id` is the
`rid ≠ ""` conjunct.  Returns the updated store and the boolean result
(`true` exactly for a new user). -/
def register_user (now : Int) (db : MStore) (uid : String)
    (username first_name : String) (referrer_id : Option String) :
    MStore × Bool :=
  match db uid with
  | some u =>
    let u' := { u with username := username, first_name := first_name, last_active := now }
    (fun k => if k = uid then some u' else db k, false)
  | none =>
    let new_user : MUser :=
      { username := username, first_name := first_name,
        joined_date := now, last_active := now }
    match referrer_id with
    | some rid =>
      if rid ≠ "" ∧ rid ≠ uid ∧ (db rid).isSome then
        let r := (db rid).getD {}
        let r' := { r with balance := r.balance + REFERRAL_BONUS,
                           referrals := r.referrals ++ [uid] }
        let new_user' := { new_user with referredBy := some rid,
                                         balance := new_user.balance + REFERRAL_BONUS }
        (fun k => if k = uid then some new_user' else if k = rid then some r' else db k, true)
      else
        (fun k => if k = uid then some new_user else db k, true)
    | none => (fun k => if k = uid then some new_user else db k, true)

/-- The field subset accepted by `/sync-user-data` (`api_sync_user_data`,
`main.py` lines 986-1021): each key is optional; present keys are
client-supplied replacement values. -/
structure ProgressData where
  balance : Option ℚ := none
  tonBalance : Option ℚ := none
  level : Option Int := none
  currentLevelScore : Option ℚ := none
  tapCount : Option Int := none
  deriving DecidableEq

/-- `DatabaseManager.update_user_progress` of `main.py` (lines 364-388):
overwrites the record's fields with whatever the client sent; no anti-cheat
validation is performed (the source's comment leaves it as a TODO). -/
def update_user_progress (now : Int) (db : MStore) (uid : String)
    (data : ProgressData) : MStore × Bool :=
  match db uid with
  | none => (db, false)
  | some u =>
    let u' := { u with balance := data.balance.getD u.balance,
                       tonBalance := data.tonBalance.getD u.tonBalance,
                       level := data.level.getD u.level,
                       currentLevelScore := data.currentLevelScore.getD u.currentLevelScore,
                       tapCount := data.tapCount.getD u.tapCount,
                       last_active := now }
    (fun k => if k = uid then some u' else db k, true)

/-- The timed-perk branch of `on_successful_payment` in `main.py`
(lines 935-945): `current_end = user_data.get(field, time.time())`, clamped
up to `now`, plus the item's `amount` in seconds.  This equals
`max(now, current_end) + amount` when the field is present. -/
def stack_perk_end (now : Int) (current_end : Option Int) (amount : Int) : Int :=
  let c := current_end.getD now
  let c := if c < now then now else c
  c + amount

/-- A `GameConfig.SHOP_ITEMS` entry of `main.py` (lines 99-182): Stars
`price` and an `amount` — coins for coin packs, seconds for timed perks. -/
structure MShopItem where
  price : Int
  amount : Int
  type : Backend.ItemType
  deriving DecidableEq

/-- The `GameConfig.SHOP_ITEMS` dictionary of `main.py`. -/
def M_SHOP_ITEMS : String → Option MShopItem := fun id =>
  if id = "coin_starter" then some { price := 10, amount := 5000, type := Backend.ItemType.coin }
  else if id = "coin_small" then some { price := 50, amount := 30000, type := Backend.ItemType.coin }
  else if id = "coin_medium" then some { price := 100, amount := 70000, type := Backend.ItemType.coin }
  else if id = "coin_large" then some { price := 250, amount := 200000, type := Backend.ItemType.coin }
  else if id = "coin_mega" then some { price := 500, amount := 500000, type := Backend.ItemType.coin }
  else if id = "booster_3d" then some { price := 20, amount := 3 * 24 * 3600, type := Backend.ItemType.booster }
  else if id = "booster_15d" then some { price := 70, amount := 15 * 24 * 3600, type := Backend.ItemType.booster }
  else if id = "booster_30d" then some { price := 120, amount := 30 * 24 * 3600, type := Backend.ItemType.booster }
  else if id = "autotap_1d" then some { price := 20, amount := 1 * 24 * 3600, type := Backend.ItemType.autotap }
  else if id = "autotap_7d" then some { price := 80, amount := 7 * 24 * 3600, type := Backend.ItemType.autotap }
  else if id = "autotap_30d" then some { price := 200, amount := 30 * 24 * 3600, type := Backend.ItemType.autotap }
  else none

/-- The per-item record mutation of `on_successful_payment` in `main.py`
(lines 931-946): a coin grant adds `amount` to `balance`; a timed perk
writes `stack_perk_end` into `booster_end`/`autotap_end`. -/
def applyPaidItem (now : Int) (item : MShopItem) (u : MUser) : MUser :=
  match item.type with
  | Backend.ItemType.coin => { u with balance := u.balance + (item.amount : ℚ) }
  | Backend.ItemType.booster =>
    { u with booster_end := some (stack_perk_end now u.booster_end item.amount) }
  | Backend.ItemType.autotap =>
    { u with autotap_end := some (stack_perk_end now u.autotap_end item.amount) }

/-- `on_successful_payment` of `main.py` (lines 902-951) as a store
transition: the payload `user_id_item_id` is split at the FIRST `_`
(discarding the left part — the payer's id comes from the message), the
item is looked up, and an existing payer record is mutated; a failed
unpack, unknown item or missing record leaves the store unchanged (the
handler's exceptions are caught and only messaged). -/
def on_successful_payment (now : Int) (db : MStore) (user_id payload : String) : MStore :=
  match Backend.splitOnce payload "_" with
  | none => db
  | some pr =>
    match M_SHOP_ITEMS pr.2 with
    | none => db
    | some item =>
      match db user_id with
      | none => db
      | some u => fun k => if k = user_id then some (applyPaidItem now item u) else db k

end Main

/-! ## Observation helpers used in theorem statements -/

namespace Backend

/-- The balance recorded under a store entry, `0` when the document or the
field is absent (mirroring `.get('balance', 0)`). -/
def optBal (o : Option BUser) : Int := (o.getD {}).balance.getD 0

/-- The TON balance recorded under a store entry, `0` when absent. -/
def optTon (o : Option BUser) : ℚ := (o.getD {}).tonBalance.getD 0

/-- The truthy referrer id of a document: `referredBy` when set and
non-empty (Python truthiness), else `none`. -/
def referrerTarget (u : BUser) : Option String :=
  match u.referredBy with
  | some rid => if rid = "" then none else some rid
  | none => none

/-- The expiry field `f"{item['type']}EndTime"` selected by a timed perk's
type in `update_user_perks` (`coin` selects no expiry field and is unused
here). -/
def perkEndTime : ItemType → BUser → Option Int
  | ItemType.coin, _ => none
  | ItemType.booster, u => u.boosterEndTime
  | ItemType.autotap, u => u.autotapEndTime

end Backend

namespace Main

/-- The balance of a `main.py` store entry, `0` when the record is
absent. -/
def mBal : Option MUser → ℚ
  | some u => u.balance
  | none => 0

/-- The TON balance of a `main.py` store entry, `0` when the record is
absent. -/
def mTon : Option MUser → ℚ
  | some u => u.tonBalance
  | none => 0

end Main

/-! ## Concrete fixtures for witnesses and counterexamples -/

/-- A tapper document: fresh account, referred by user `"2"`. -/
def demoTapper : Backend.BUser :=
  { balance := some 0, level := some 1, tapCount := some 0,
    last_sync := some 0, boosterEndTime := some 0, referredBy := some "2" }

/-- A store holding only the tapper: its referrer `"2"` has no record. -/
def storeMissingReferrer : Backend.Store :=
  fun k => if k = "1" then some demoTapper else none

/-- The referrer document for the present-referrer fixture. -/
def demoReferrer : Backend.BUser := { balance := some 100 }

/-- A store holding the tapper `"1"` and its referrer `"2"`. -/
def storePresentReferrer : Backend.Store :=
  fun k => if k = "1" then some demoTapper else if k = "2" then some demoReferrer else none

/-- A spinner who last span at epoch 0. -/
def spinnerA : Backend.BUser := { tonBalance := some 3, lastSpinTime := some 0 }

/-- A spinner who last span at 500000 ms. -/
def spinnerB : Backend.BUser := { tonBalance := some 3, lastSpinTime := some 500000 }

/-- Store for spinner A under id `"1"`. -/
def storeSpinnerA : Backend.Store := fun k => if k = "1" then some spinnerA else none

/-- Store for spinner B under id `"1"`. -/
def storeSpinnerB : Backend.Store := fun k => if k = "1" then some spinnerB else none

/-- A buyer whose booster expired one day before the fixture's `now`
(`now_ms = 172800000`, expiry `86400000`). -/
def demoBuyer : Backend.BUser := { balance := some 0, boosterEndTime := some 86400000 }

/-- Store holding the buyer under id `"12345"`. -/
def storeBuyer : Backend.Store := fun k => if k = "12345" then some demoBuyer else none

/-- A `main.py` record for an established user with balance 100. -/
def mUserRich : Main.MUser := { balance := 100, tonBalance := 2 }

/-- A `main.py` store holding only `mUserRich` under id `"1"`. -/
def mStoreRich : Main.MStore := fun k => if k = "1" then some mUserRich else none

/-- A `main.py` store holding an established referrer under id `"9"`. -/
def mStoreReferrer : Main.MStore :=
  fun k => if k = "9" then some { balance := 700, referrals := ["5"] } else none

/-! ## Claims -/

open Backend Main

/-- Unfolding lemma: `sync_taps` on an existing record in the accepted
branch. -/
theorem sync_taps_accept_eq
    (now : Int) (store : Backend.Store) (uid : String) (u : Backend.BUser)
    (taps : Int) (cf : Bool)
    (hu : store uid = some u) (hnot : ¬ taps > tapCap now u) :
    sync_taps now store uid taps cf =
      (SyncResult.ok (u.balance.getD 0 + taps * u.level.getD 1 * tapMultiplier now u),
       fun k =>
         if k = uid then
           some { (commissionStore store u.referredBy
                     (taps * u.level.getD 1 * tapMultiplier now u) cf uid).getD {} with
                    balance := some (u.balance.getD 0 + taps * u.level.getD 1 * tapMultiplier now u)
                    last_sync := some now
                    tapCount := some (u.tapCount.getD 0 + taps) }
         else commissionStore store u.referredBy
                (taps * u.level.getD 1 * tapMultiplier now u) cf k) := by
  unfold sync_taps
  rw [hu]
  dsimp only
  rw [if_neg hnot]

/-- Unfolding lemma: `sync_taps` on an existing record in the rejected
branch. -/
theorem sync_taps_reject_eq
    (now : Int) (store : Backend.Store) (uid : String) (u : Backend.BUser)
    (taps : Int) (cf : Bool)
    (hu : store uid = some u) (hgt : taps > tapCap now u) :
    sync_taps now store uid taps cf =
      (SyncResult.rejected (u.balance.getD 0), store) := by
  unfold sync_taps
  rw [hu]
  dsimp only
  rw [if_pos hgt]

/-- C1: for every tap-sync on an existing user record with
`claimedTaps ≤ (now - last_sync) * 15 + 50`, the response is `ok` and the
new balance is the old balance plus `claimedTaps * level * multiplier`,
where `multiplier = 2` iff the record's `boosterEndTime` (ms) is strictly
greater than the current time; `tapCount` increases by `claimedTaps` and
`last_sync` is set to `now`.  This holds whether or not the commission
side-write fails (`cf`). -/
theorem sync_taps_accept_ok
    (now ls bal lvl tc booster taps : Int) (store : Backend.Store) (uid : String)
    (u : Backend.BUser) (cf : Bool)
    (hu : store uid = some u)
    (hls : u.last_sync = some ls)
    (hbal : u.balance = some bal)
    (hlvl : u.level = some lvl)
    (htc : u.tapCount = some tc)
    (hbe : u.boosterEndTime = some booster)
    (hcap : taps ≤ (now - ls) * 15 + 50) :
    (sync_taps now store uid taps cf).1 =
      SyncResult.ok (bal + taps * lvl * (if booster > now * 1000 then 2 else 1)) ∧
    ((if booster > now * 1000 then (2 : Int) else 1) = 2 ↔ booster > now * 1000) ∧
    ∃ u', (sync_taps now store uid taps cf).2 uid = some u' ∧
      u'.balance = some (bal + taps * lvl * (if booster > now * 1000 then 2 else 1)) ∧
      u'.tapCount = some (tc + taps) ∧
      u'.last_sync = some now := by
  have hnot : ¬ taps > tapCap now u := by
    simp only [tapCap, hls, Option.getD_some]
    omega
  have hmult : tapMultiplier now u = if booster > now * 1000 then 2 else 1 := by
    simp only [tapMultiplier, hbe, Option.getD_some]
  rw [sync_taps_accept_eq now store uid u taps cf hu hnot]
  refine ⟨?_, ?_, ?_⟩
  · simp only [hmult, hbal, hlvl, Option.getD_some]
  · by_cases hb : booster > now * 1000
    · simp [hb]
    · simp [hb]
  · refine ⟨{ (commissionStore store u.referredBy
                 (taps * u.level.getD 1 * tapMultiplier now u) cf uid).getD {} with
                 balance := some (u.balance.getD 0 + taps * u.level.getD 1 * tapMultiplier now u)
                 last_sync := some now
                 tapCount := some (u.tapCount.getD 0 + taps) }, ?_, ?_, ?_, ?_⟩
    · show (if uid = uid then _ else _) = _
      rw [if_pos rfl]
    · simp only [hmult, hbal, hlvl, Option.getD_some]
    · simp only [htc, Option.getD_some]
    · rfl

/-- Witness for `sync_taps_accept_ok` at a concrete input: user `"1"` of
`storePresentReferrer`, 100 taps claimed 10 seconds after the last sync. -/
theorem sync_taps_accept_ok_witness :
    (100 : Int) ≤ (10 - 0) * 15 + 50 ∧
    ((sync_taps 10 storePresentReferrer "1" 100 false).1 =
      SyncResult.ok (0 + 100 * 1 * (if (0 : Int) > 10 * 1000 then 2 else 1)) ∧
    ((if (0 : Int) > 10 * 1000 then (2 : Int) else 1) = 2 ↔ (0 : Int) > 10 * 1000) ∧
    ∃ u', (sync_taps 10 storePresentReferrer "1" 100 false).2 "1" = some u' ∧
      u'.balance = some (0 + 100 * 1 * (if (0 : Int) > 10 * 1000 then 2 else 1)) ∧
      u'.tapCount = some (0 + 100) ∧
      u'.last_sync = some 10) :=
  ⟨by decide,
   sync_taps_accept_ok 10 0 0 1 0 0 100 storePresentReferrer "1" demoTapper false
     rfl rfl rfl rfl rfl rfl (by decide)⟩

/-- C2: for every tap-sync on an existing user record with
`claimedTaps > (now - last_sync) * 15 + 50`, the response is `rejected`
carrying the current balance and the whole store (in particular every field
of the user's record) is unchanged. -/
theorem sync_taps_reject_unchanged
    (now ls taps : Int) (store : Backend.Store) (uid : String)
    (u : Backend.BUser) (cf : Bool)
    (hu : store uid = some u)
    (hls : u.last_sync = some ls)
    (hcap : taps > (now - ls) * 15 + 50) :
    (sync_taps now store uid taps cf).1 = SyncResult.rejected (u.balance.getD 0) ∧
    (sync_taps now store uid taps cf).2 = store := by
  have hgt : taps > tapCap now u := by
    simp only [tapCap, hls, Option.getD_some]
    omega
  rw [sync_taps_reject_eq now store uid u taps cf hu hgt]
  exact ⟨rfl, rfl⟩

/-- Witness for `sync_taps_reject_unchanged`: user `"1"` claims 300 taps
one second after the last sync (`cap = 65`). -/
theorem sync_taps_reject_unchanged_witness :
    (300 : Int) > (1 - 0) * 15 + 50 ∧
    ((sync_taps 1 storePresentReferrer "1" 300 false).1 =
       SyncResult.rejected (demoTapper.balance.getD 0) ∧
     (sync_taps 1 storePresentReferrer "1" 300 false).2 = storePresentReferrer) :=
  ⟨by decide,
   sync_taps_reject_unchanged 1 0 300 storePresentReferrer "1" demoTapper false
     rfl rfl (by decide)⟩

/-- Helper: a successful commission write credits the referrer's balance
entry by `E / 10` when `E > 10` and the referrer id is truthy. -/
theorem commissionStore_self (store : Backend.Store) (rid : String) (E : Int)
    (hrid0 : ¬ rid = "") (hearn : E > 10) :
    optBal (commissionStore store (some rid) E false rid) = optBal (store rid) + E / 10 := by
  have hcpos : E / 10 > 0 := by omega
  simp only [commissionStore]
  rw [if_pos ⟨hrid0, hearn⟩, if_pos hcpos, if_neg (by decide : ¬ (false = true))]
  simp only [creditBalance]
  rw [if_pos trivial]
  cases hsk : store rid with
  | none => simp [optBal, hsk]
  | some r => simp [optBal, hsk]

/-- Helper: the commission write touches no id other than the referrer. -/
theorem commissionStore_other (store : Backend.Store) (rid k : String) (E : Int)
    (cf : Bool) (hkr : ¬ k = rid) :
    commissionStore store (some rid) E cf k = store k := by
  simp only [commissionStore]
  by_cases h1 : rid ≠ "" ∧ E > 10
  · rw [if_pos h1]
    by_cases h2 : E / 10 > 0
    · rw [if_pos h2]
      cases cf
      · rw [if_neg (by decide : ¬ (false = true))]
        simp only [creditBalance]
        rw [if_neg hkr]
      · rw [if_pos (by decide : (true = true))]
    · rw [if_neg h2]
  · rw [if_neg h1]

/-- Helper: no commission is written when the guard
`referredBy truthy ∧ earned > 10` fails. -/
theorem commissionStore_skip (store : Backend.Store) (rid : String) (E : Int)
    (cf : Bool) (k : String) (h : ¬ (rid ≠ "" ∧ E > 10)) :
    commissionStore store (some rid) E cf k = store k := by
  simp only [commissionStore]
  rw [if_neg h]

/-- C3 counterexample: an accepted tap-sync for user `"1"` (20 taps,
`earned = 20 > 10`) whose `referredBy = "2"` points at a NON-existing
record.  The claim says the referrer's balance must then be unchanged, but
the Firebase transaction is an upsert: it creates `users/2` with
`balance = 2` (the commission). -/
theorem sync_taps_credits_missing_referrer :
    storeMissingReferrer "2" = none ∧
    (sync_taps 10 storeMissingReferrer "1" 20 false).1 = SyncResult.ok 20 ∧
    (sync_taps 10 storeMissingReferrer "1" 20 false).2 "2" =
      some { balance := some 2 } := by
  refine ⟨rfl, ?_, ?_⟩ <;> decide

/-- C3 (amended): on an accepted tap-sync whose commission write does not
fail, for every OTHER id `k`, the balance recorded under `k` afterwards
(0 when the document or field is absent; the document is created if
missing) equals the prior one plus `earned / 10` exactly when `k` is the
referee's truthy `referredBy` target and `earned > 10`; in every other case
it is unchanged.  (The original claim fails when the referrer record does
not exist — the upsert credits it anyway — and the referee's own record,
`k = uid`, has its balance overwritten by the referee's write.) -/
theorem sync_taps_referrer_balance
    (now ls lvl booster taps : Int) (store : Backend.Store) (uid k : String)
    (u : Backend.BUser)
    (hu : store uid = some u)
    (hls : u.last_sync = some ls)
    (hlvl : u.level = some lvl)
    (hbe : u.boosterEndTime = some booster)
    (hcap : taps ≤ (now - ls) * 15 + 50)
    (hk : k ≠ uid) :
    optBal ((sync_taps now store uid taps false).2 k) =
      optBal (store k) +
        (if referrerTarget u = some k ∧
            taps * lvl * (if booster > now * 1000 then 2 else 1) > 10
         then taps * lvl * (if booster > now * 1000 then 2 else 1) / 10
         else 0) := by
  have hnot : ¬ taps > tapCap now u := by
    simp only [tapCap, hls, Option.getD_some]
    omega
  have hmult : tapMultiplier now u = if booster > now * 1000 then 2 else 1 := by
    simp only [tapMultiplier, hbe, Option.getD_some]
  have hE : taps * u.level.getD 1 * tapMultiplier now u =
      taps * lvl * (if booster > now * 1000 then 2 else 1) := by
    rw [hlvl, hmult, Option.getD_some]
  rw [sync_taps_accept_eq now store uid u taps false hu hnot]
  show optBal (if k = uid then _ else commissionStore store u.referredBy
      (taps * u.level.getD 1 * tapMultiplier now u) false k) = _
  rw [if_neg hk, hE, ← hE]
  set E := taps * u.level.getD 1 * tapMultiplier now u with hEdef
  cases hrb : u.referredBy with
  | none =>
    simp only [commissionStore, referrerTarget, hrb]
    simp
  | some rid =>
    simp only [referrerTarget, hrb]
    by_cases hrid0 : rid = ""
    · rw [if_pos hrid0, commissionStore_skip store rid E false k (by simp [hrid0])]
      simp
    · rw [if_neg hrid0]
      by_cases hearn : E > 10
      · by_cases hkr : k = rid
        · subst hkr
          rw [if_pos ⟨rfl, hearn⟩, commissionStore_self store k E hrid0 hearn]
        · have hcond : ¬ (some rid = some k ∧ E > 10) := by
            rintro ⟨h, _⟩
            exact hkr (Option.some.inj h).symm
          rw [if_neg hcond, commissionStore_other store rid k E false hkr]
          omega
      · have hcond2 : ¬ (some rid = some k ∧ E > 10) := fun h => hearn h.2
        rw [if_neg hcond2, commissionStore_skip store rid E false k (fun h => hearn h.2)]
        omega

/-- Witness for `sync_taps_referrer_balance`: the present-referrer fixture;
referrer `"2"` (balance 100) ends with 102 after the referee's accepted
20-tap sync (`earned = 20`, commission 2). -/
theorem sync_taps_referrer_balance_witness :
    (20 : Int) ≤ (10 - 0) * 15 + 50 ∧ ("2" : String) ≠ "1" ∧
    optBal ((sync_taps 10 storePresentReferrer "1" 20 false).2 "2") =
      optBal (storePresentReferrer "2") +
        (if referrerTarget demoTapper = some "2" ∧
            20 * 1 * (if (0 : Int) > 10 * 1000 then 2 else 1) > 10
         then 20 * 1 * (if (0 : Int) > 10 * 1000 then 2 else 1) / 10
         else 0) :=
  ⟨by decide, by decide,
   sync_taps_referrer_balance 10 0 1 0 20 storePresentReferrer "1" "2" demoTapper
     rfl rfl rfl rfl (by decide) (by decide)⟩

/-- C4 (the code is wrong): the webhook parses the invoice payload with
`data.split('_', 1)`, anchoring on the FIRST underscore, so the payload
`booster_15d_12345` — exactly what `create_invoice` emits for item
`booster_15d` and user `12345` — is split into item id `booster` (absent
from the catalog) and user id `15d_12345`.  `update_user_perks` therefore
returns `False` and the buyer's expired booster (`86400000`, one day before
`now_ms = 172800000`) is NOT extended to `now + 15` days as the claim
requires; no record changes at all. -/
theorem webhook_payload_split_bug :
    splitOnce "booster_15d_12345" "_" = some ("booster", "15d_12345") ∧
    SHOP_ITEMS "booster" = none ∧
    (handle_successful_payment 172800000 storeBuyer "booster_15d_12345").2 = false ∧
    (handle_successful_payment 172800000 storeBuyer "booster_15d_12345").1 "12345" =
      some { balance := some 0, boosterEndTime := some 86400000 } ∧
    (handle_successful_payment 172800000 storeBuyer "booster_15d_12345").1 "15d_12345" =
      none := by
  refine ⟨?_, ?_, ?_, ?_, ?_⟩ <;> decide

/-- Helper: the booster branch of `update_user_perks` writes
`max(now_ms, current_end) + duration * dayMs` into `boosterEndTime`. -/
theorem update_user_perks_booster_eq
    (now_ms : Int) (store : Backend.Store) (uid id : String) (it : ShopItem)
    (hid : SHOP_ITEMS id = some it) (hb : it.type = ItemType.booster) :
    (update_user_perks now_ms store uid id).1 uid =
      some { (store uid).getD {} with
               boosterEndTime :=
                 some (max now_ms (((store uid).getD {}).boosterEndTime.getD 0) +
                   it.duration * dayMs) } := by
  simp only [update_user_perks, hid]
  rw [if_pos trivial]
  simp only [applyItem, hb]

/-- Helper: the autotap branch of `update_user_perks` writes
`max(now_ms, current_end) + duration * dayMs` into `autotapEndTime`. -/
theorem update_user_perks_autotap_eq
    (now_ms : Int) (store : Backend.Store) (uid id : String) (it : ShopItem)
    (hid : SHOP_ITEMS id = some it) (hb : it.type = ItemType.autotap) :
    (update_user_perks now_ms store uid id).1 uid =
      some { (store uid).getD {} with
               autotapEndTime :=
                 some (max now_ms (((store uid).getD {}).autotapEndTime.getD 0) +
                   it.duration * dayMs) } := by
  simp only [update_user_perks, hid]
  rw [if_pos trivial]
  simp only [applyItem, hb]

/-- C5: every timed-perk purchase (booster or autotap) sets its expiry
field to `max(now, currentExpiry) + duration`; applying two purchases of
the same timed kind in sequence therefore yields
`max(now2, firstExpiry) + duration2`, which equals
`firstExpiry + duration2` whenever the first perk is still active
(`now2 < firstExpiry`) and is never below `firstExpiry + duration2`.  The
same `max(now, currentExpiry) + amount` shape holds for the timed-perk
branches of `on_successful_payment` in `main.py` (`stack_perk_end`). -/
theorem perk_stacking
    (now1 now2 : Int) (store : Backend.Store) (uid id1 id2 : String)
    (it1 it2 : ShopItem)
    (h1 : SHOP_ITEMS id1 = some it1)
    (h2 : SHOP_ITEMS id2 = some it2)
    (hsame : it2.type = it1.type)
    (hkind : it1.type = ItemType.booster ∨ it1.type = ItemType.autotap) :
    (perkEndTime it1.type (((update_user_perks now1 store uid id1).1 uid).getD {})).getD 0 =
      max now1 ((perkEndTime it1.type ((store uid).getD {})).getD 0) + it1.duration * dayMs ∧
    ((perkEndTime it1.type
        (((update_user_perks now2 (update_user_perks now1 store uid id1).1 uid id2).1
            uid).getD {})).getD 0 =
      max now2 (max now1 ((perkEndTime it1.type ((store uid).getD {})).getD 0) +
        it1.duration * dayMs) + it2.duration * dayMs) ∧
    (now2 < max now1 ((perkEndTime it1.type ((store uid).getD {})).getD 0) +
        it1.duration * dayMs →
      max now2 (max now1 ((perkEndTime it1.type ((store uid).getD {})).getD 0) +
          it1.duration * dayMs) + it2.duration * dayMs =
        (max now1 ((perkEndTime it1.type ((store uid).getD {})).getD 0) +
            it1.duration * dayMs) + it2.duration * dayMs) ∧
    ((max now1 ((perkEndTime it1.type ((store uid).getD {})).getD 0) + it1.duration * dayMs) +
        it2.duration * dayMs ≤
      max now2 (max now1 ((perkEndTime it1.type ((store uid).getD {})).getD 0) +
        it1.duration * dayMs) + it2.duration * dayMs) ∧
    (∀ now cur amount : Int, Main.stack_perk_end now (some cur) amount = max now cur + amount) := by
  have harith1 : ∀ a b : Int, now2 < a + b → max now2 (a + b) + it2.duration * dayMs =
      (a + b) + it2.duration * dayMs := by
    intro a b h
    rw [max_eq_right h.le]
  have harith2 : ∀ a b : Int, (a + b) + it2.duration * dayMs ≤
      max now2 (a + b) + it2.duration * dayMs := fun a b =>
    add_le_add_right (le_max_right _ _) _
  have hmain : ∀ now cur amount : Int,
      Main.stack_perk_end now (some cur) amount = max now cur + amount := by
    intro now cur amount
    show (if cur < now then now else cur) + amount = max now cur + amount
    congr 1
    split_ifs with h
    · exact (max_eq_left h.le).symm
    · exact (max_eq_right (not_lt.mp h)).symm
  rcases hkind with ht | ht
  · have e1 := update_user_perks_booster_eq now1 store uid id1 it1 h1 ht
    have e2 := update_user_perks_booster_eq now2 ((update_user_perks now1 store uid id1).1)
      uid id2 it2 h2 (hsame.trans ht)
    rw [e1] at e2
    rw [ht]
    exact ⟨by rw [e1]; rfl, by rw [e2]; rfl, harith1 _ _, harith2 _ _, hmain⟩
  · have e1 := update_user_perks_autotap_eq now1 store uid id1 it1 h1 ht
    have e2 := update_user_perks_autotap_eq now2 ((update_user_perks now1 store uid id1).1)
      uid id2 it2 h2 (hsame.trans ht)
    rw [e1] at e2
    rw [ht]
    exact ⟨by rw [e1]; rfl, by rw [e2]; rfl, harith1 _ _, harith2 _ _, hmain⟩

/-- Witness for `perk_stacking`: buyer `"12345"` buys `autotap_1d` at
`now1 = 0` and `autotap_7d` at `now2 = 100` (autotap expiry initially
absent, treated as 0). -/
theorem perk_stacking_witness :
    SHOP_ITEMS "autotap_1d" =
      some { stars := 20, type := ItemType.autotap, reward := 0, duration := 1 } ∧
    SHOP_ITEMS "autotap_7d" =
      some { stars := 80, type := ItemType.autotap, reward := 0, duration := 7 } ∧
    ((perkEndTime ItemType.autotap
        (((update_user_perks 0 storeBuyer "12345" "autotap_1d").1 "12345").getD {})).getD 0 =
      max 0 ((perkEndTime ItemType.autotap ((storeBuyer "12345").getD {})).getD 0) +
        1 * dayMs ∧
    ((perkEndTime ItemType.autotap
        (((update_user_perks 100 (update_user_perks 0 storeBuyer "12345" "autotap_1d").1
            "12345" "autotap_7d").1 "12345").getD {})).getD 0 =
      max 100 (max 0 ((perkEndTime ItemType.autotap ((storeBuyer "12345").getD {})).getD 0) +
        1 * dayMs) + 7 * dayMs) ∧
    ((100 : Int) < max 0 ((perkEndTime ItemType.autotap
          ((storeBuyer "12345").getD {})).getD 0) + 1 * dayMs →
      max 100 (max 0 ((perkEndTime ItemType.autotap ((storeBuyer "12345").getD {})).getD 0) +
          1 * dayMs) + 7 * dayMs =
        (max 0 ((perkEndTime ItemType.autotap ((storeBuyer "12345").getD {})).getD 0) +
            1 * dayMs) + 7 * dayMs) ∧
    ((max 0 ((perkEndTime ItemType.autotap ((storeBuyer "12345").getD {})).getD 0) +
          1 * dayMs) + 7 * dayMs ≤
      max 100 (max 0 ((perkEndTime ItemType.autotap ((storeBuyer "12345").getD {})).getD 0) +
        1 * dayMs) + 7 * dayMs) ∧
    (∀ now cur amount : Int, Main.stack_perk_end now (some cur) amount = max now cur + amount)) :=
  ⟨by decide, by decide,
   perk_stacking 0 100 storeBuyer "12345" "autotap_1d" "autotap_7d"
     { stars := 20, type := ItemType.autotap, reward := 0, duration := 1 }
     { stars := 80, type := ItemType.autotap, reward := 0, duration := 7 }
     (by decide) (by decide) rfl (Or.inr rfl)⟩

/-- C6 counterexample: the cooldown failure of `/spin_wheel` does NOT carry
the remaining wait time.  Two users whose remaining waits differ
(`85400000` ms vs `85900000` ms) receive the IDENTICAL constant response
`{"ok": false, "error": "Cooldown active"}`, so the response determines no
remaining wait time, contradicting the claim. -/
theorem spin_cooldown_lacks_remaining_time :
    (1000000 : Int) - 0 < 86400000 ∧
    (1000000 : Int) - 500000 < 86400000 ∧
    86400000 - ((1000000 : Int) - 0) ≠ 86400000 - ((1000000 : Int) - 500000) ∧
    (spin_wheel_secure 1000000 storeSpinnerA "1" 0).1 =
      (spin_wheel_secure 1000000 storeSpinnerB "1" 0).1 := by
  exact ⟨by decide, by decide, by decide, by decide⟩

/-- C6 (amended): if `now - lastSpinTime < 86400000` the draw fails with a
constant cooldown error (carrying NO remaining wait time) and the store is
unchanged; otherwise the chosen index's prize from the 8-entry table is
added to the TON balance, `lastSpinTime` is set to `now`, the response
returns the index, prize and new TON balance, and no other record
changes. -/
theorem spin_wheel_spec
    (now_ms ls : Int) (tb : ℚ) (store : Backend.Store) (uid : String)
    (u : Backend.BUser) (idx : Fin 8)
    (hu : store uid = some u)
    (hls : u.lastSpinTime = some ls)
    (htb : u.tonBalance = some tb) :
    (now_ms - ls < 86400000 →
      spin_wheel_secure now_ms store uid idx = (SpinResult.cooldown, store)) ∧
    (¬ now_ms - ls < 86400000 →
      (spin_wheel_secure now_ms store uid idx).1 =
        SpinResult.ok idx.val (SPIN_PRIZES.getD idx.val 0) (tb + SPIN_PRIZES.getD idx.val 0) ∧
      (spin_wheel_secure now_ms store uid idx).2 uid =
        some { u with tonBalance := some (tb + SPIN_PRIZES.getD idx.val 0),
                      lastSpinTime := some now_ms } ∧
      ∀ k, k ≠ uid → (spin_wheel_secure now_ms store uid idx).2 k = store k) := by
  constructor
  · intro h
    simp only [spin_wheel_secure, hu, Option.getD_some, hls]
    rw [if_pos h]
  · intro h
    simp only [spin_wheel_secure, hu, Option.getD_some, hls, htb]
    rw [if_neg h]
    refine ⟨rfl, ?_, ?_⟩
    · show (if uid = uid then _ else _) = _
      rw [if_pos rfl]
    · intro k hk
      show (if k = uid then _ else _) = _
      rw [if_neg hk]

/-- Witness for `spin_wheel_spec`: spinner A draws index 2 at
`now = 90000000` (eligible), winning `1/2` TON on top of 3. -/
theorem spin_wheel_spec_witness :
    ¬ ((90000000 : Int) - 0 < 86400000) ∧
    (((90000000 : Int) - 0 < 86400000 →
      spin_wheel_secure 90000000 storeSpinnerA "1" 2 = (SpinResult.cooldown, storeSpinnerA)) ∧
    (¬ (90000000 : Int) - 0 < 86400000 →
      (spin_wheel_secure 90000000 storeSpinnerA "1" 2).1 =
        SpinResult.ok (2 : Fin 8).val (SPIN_PRIZES.getD (2 : Fin 8).val 0)
          (3 + SPIN_PRIZES.getD (2 : Fin 8).val 0) ∧
      (spin_wheel_secure 90000000 storeSpinnerA "1" 2).2 "1" =
        some { spinnerA with tonBalance := some (3 + SPIN_PRIZES.getD (2 : Fin 8).val 0),
                             lastSpinTime := some 90000000 } ∧
      ∀ k, k ≠ "1" → (spin_wheel_secure 90000000 storeSpinnerA "1" 2).2 k =
        storeSpinnerA k)) :=
  ⟨by decide,
   spin_wheel_spec 90000000 0 3 storeSpinnerA "1" spinnerA 2 rfl rfl rfl⟩

/-- Helper: `creditBalance` in closed form. -/
theorem creditBalance_eq (store : Backend.Store) (rid : String) (c : Int) (k : String) :
    creditBalance store rid c k =
      if k = rid then
        some { (store rid).getD {} with
                 balance := some (((store rid).getD {}).balance.getD 0 + c) }
      else store k := by
  simp only [creditBalance]
  by_cases hk : k = rid
  · rw [if_pos hk, if_pos hk]
    cases h : store rid with
    | none => simp
    | some u => rfl
  · rw [if_neg hk, if_neg hk]

/-- Helper: a failed (swallowed) commission write leaves the store
unchanged. -/
theorem commissionStore_failed (store : Backend.Store) (rid : String) (E : Int)
    (k : String) :
    commissionStore store (some rid) E true k = store k := by
  simp only [commissionStore]
  by_cases h1 : rid ≠ "" ∧ E > 10
  · rw [if_pos h1]
    by_cases h2 : E / 10 > 0
    · rw [if_pos h2, if_pos trivial]
    · rw [if_neg h2]
  · rw [if_neg h1]

/-- Helper: `sync_taps` on a missing record. -/
theorem sync_taps_notFound_eq
    (now : Int) (store : Backend.Store) (uid : String) (taps : Int) (cf : Bool)
    (hu : store uid = none) :
    sync_taps now store uid taps cf = (SyncResult.notFound, store) := by
  unfold sync_taps
  rw [hu]

/-- Helper: `update_user_perks` on an unknown item id. -/
theorem update_user_perks_none_eq
    (now_ms : Int) (store : Backend.Store) (uid id : String)
    (hid : SHOP_ITEMS id = none) :
    update_user_perks now_ms store uid id = (store, false) := by
  unfold update_user_perks
  rw [hid]

/-- Helper: `update_user_perks` on a known item id in closed form. -/
theorem update_user_perks_some_eq
    (now_ms : Int) (store : Backend.Store) (uid id : String) (it : ShopItem)
    (hid : SHOP_ITEMS id = some it) :
    update_user_perks now_ms store uid id =
      (fun k => if k = uid then some (applyItem now_ms it ((store uid).getD {}))
        else store k, true) := by
  unfold update_user_perks
  rw [hid]

/-- Helper: the commission write never lowers any balance. -/
theorem commissionStore_bal_mono (store : Backend.Store) (rb : Option String)
    (E : Int) (cf : Bool) (k : String) :
    optBal (store k) ≤ optBal (commissionStore store rb E cf k) := by
  cases rb with
  | none => exact le_refl _
  | some rid =>
    by_cases h1 : rid ≠ "" ∧ E > 10
    · cases cf with
      | true => rw [commissionStore_failed store rid E k]
      | false =>
        by_cases hk : k = rid
        · subst hk
          rw [commissionStore_self store k E h1.1 h1.2]
          have : (0 : Int) ≤ E / 10 := by
            have := h1.2
            omega
          omega
        · rw [commissionStore_other store rid k E false hk]
    · rw [commissionStore_skip store rid E cf k h1]

/-- Helper: the commission write never touches a TON balance. -/
theorem commissionStore_ton (store : Backend.Store) (rb : Option String)
    (E : Int) (cf : Bool) (k : String) :
    optTon (commissionStore store rb E cf k) = optTon (store k) := by
  cases rb with
  | none => rfl
  | some rid =>
    by_cases h1 : rid ≠ "" ∧ E > 10
    · cases cf with
      | true => rw [commissionStore_failed store rid E k]
      | false =>
        have hcpos : E / 10 > 0 := by
          have := h1.2
          omega
        simp only [commissionStore]
        rw [if_pos h1, if_pos hcpos, if_neg (by decide : ¬ (false = true)),
          creditBalance_eq store rid (E / 10) k]
        by_cases hk : k = rid
        · rw [if_pos hk, hk]
          cases h : store rid with
          | none => simp [optTon, h]
          | some u => simp [optTon, h]
        · rw [if_neg hk]
    · rw [commissionStore_skip store rid E cf k h1]

set_option maxHeartbeats 1000000 in
/-- Helper: every catalog reward is non-negative. -/
theorem SHOP_ITEMS_reward_nonneg (id : String) (it : ShopItem)
    (h : SHOP_ITEMS id = some it) : 0 ≤ it.reward := by
  unfold SHOP_ITEMS at h
  split_ifs at h
  all_goals (obtain rfl := Option.some.inj h; decide)

/-- Helper: every spin prize is non-negative. -/
theorem SPIN_PRIZES_nonneg (i : Fin 8) : (0 : ℚ) ≤ SPIN_PRIZES.getD i.val 0 := by
  have hlt := i.isLt
  have h8 : i.val = 0 ∨ i.val = 1 ∨ i.val = 2 ∨ i.val = 3 ∨ i.val = 4 ∨ i.val = 5 ∨
      i.val = 6 ∨ i.val = 7 := by omega
  rcases h8 with h | h | h | h | h | h | h | h <;> rw [h] <;> norm_num [SPIN_PRIZES]

/-- Helper: `/sync_taps` with non-negative claimed taps on a record of
non-negative level never lowers any balance and never changes a TON
balance. -/
theorem sync_taps_bal_ton_mono
    (now : Int) (store : Backend.Store) (uid : String) (taps : Int) (cf : Bool)
    (k : String)
    (htaps : 0 ≤ taps) (hlvl : 0 ≤ ((store uid).getD {}).level.getD 1) :
    optBal (store k) ≤ optBal ((sync_taps now store uid taps cf).2 k) ∧
    optTon ((sync_taps now store uid taps cf).2 k) = optTon (store k) := by
  cases hu : store uid with
  | none =>
    rw [sync_taps_notFound_eq now store uid taps cf hu]
    exact ⟨le_refl _, rfl⟩
  | some u =>
    rw [hu] at hlvl
    simp only [Option.getD_some] at hlvl
    by_cases hcap : taps > tapCap now u
    · rw [sync_taps_reject_eq now store uid u taps cf hu hcap]
      exact ⟨le_refl _, rfl⟩
    · rw [sync_taps_accept_eq now store uid u taps cf hu hcap]
      have hm : tapMultiplier now u = 2 ∨ tapMultiplier now u = 1 := by
        simp only [tapMultiplier]
        split_ifs
        · exact Or.inl rfl
        · exact Or.inr rfl
      have hE0 : 0 ≤ taps * u.level.getD 1 * tapMultiplier now u := by
        have h1 : 0 ≤ taps * u.level.getD 1 := mul_nonneg htaps hlvl
        rcases hm with h | h <;> rw [h]
        · omega
        · omega
      by_cases hk : k = uid
      · subst hk
        show optBal (store k) ≤ optBal (if k = k then _ else _) ∧
          optTon (if k = k then _ else _) = optTon (store k)
        rw [if_pos rfl]
        constructor
        · rw [hu]
          simp only [optBal, Option.getD_some]
          omega
        · show ((commissionStore store u.referredBy _ cf k).getD
            ({} : Backend.BUser)).tonBalance.getD 0 = optTon (store k)
          exact commissionStore_ton store u.referredBy _ cf k
      · show optBal (store k) ≤ optBal (if k = uid then _ else _) ∧
          optTon (if k = uid then _ else _) = optTon (store k)
        rw [if_neg hk]
        exact ⟨commissionStore_bal_mono store u.referredBy _ cf k,
               commissionStore_ton store u.referredBy _ cf k⟩

/-- Helper: `/spin_wheel` never changes any balance and never lowers any
TON balance. -/
theorem spin_bal_ton_mono
    (now_ms : Int) (store : Backend.Store) (uid : String) (idx : Fin 8)
    (k : String) :
    optBal ((spin_wheel_secure now_ms store uid idx).2 k) = optBal (store k) ∧
    optTon (store k) ≤ optTon ((spin_wheel_secure now_ms store uid idx).2 k) := by
  simp only [spin_wheel_secure]
  by_cases hcd : now_ms - ((store uid).getD {}).lastSpinTime.getD 0 < 86400000
  · rw [if_pos hcd]
    exact ⟨rfl, le_refl _⟩
  · rw [if_neg hcd]
    by_cases hk : k = uid
    · subst hk
      show optBal (if k = k then _ else _) = optBal (store k) ∧
        optTon (store k) ≤ optTon (if k = k then _ else _)
      rw [if_pos rfl]
      constructor
      · rfl
      · have hpz : (0 : ℚ) ≤ SPIN_PRIZES.getD idx.val 0 := SPIN_PRIZES_nonneg idx
        show optTon (store k) ≤
          ((store k).getD ({} : Backend.BUser)).tonBalance.getD 0 + SPIN_PRIZES.getD idx.val 0
        exact le_add_of_nonneg_right hpz
    · show optBal (if k = uid then _ else _) = optBal (store k) ∧
        optTon (store k) ≤ optTon (if k = uid then _ else _)
      rw [if_neg hk]
      exact ⟨rfl, le_refl _⟩

/-- Helper: `update_user_perks` never lowers any balance and never changes
any TON balance. -/
theorem perks_bal_ton_mono
    (now_ms : Int) (store : Backend.Store) (uid id : String) (k : String) :
    optBal (store k) ≤ optBal ((update_user_perks now_ms store uid id).1 k) ∧
    optTon ((update_user_perks now_ms store uid id).1 k) = optTon (store k) := by
  cases hid : SHOP_ITEMS id with
  | none =>
    rw [update_user_perks_none_eq now_ms store uid id hid]
    exact ⟨le_refl _, rfl⟩
  | some it =>
    rw [update_user_perks_some_eq now_ms store uid id it hid]
    by_cases hk : k = uid
    · subst hk
      show optBal (store k) ≤ optBal (if k = k then _ else _) ∧
        optTon (if k = k then _ else _) = optTon (store k)
      rw [if_pos rfl]
      cases ht : it.type with
      | coin =>
        simp only [applyItem, ht]
        have hr := SHOP_ITEMS_reward_nonneg id it hid
        constructor
        · show optBal (store k) ≤
            ((store k).getD ({} : Backend.BUser)).balance.getD 0 + it.reward
          exact le_add_of_nonneg_right hr
        · rfl
      | booster =>
        simp only [applyItem, ht]
        exact ⟨le_refl _, rfl⟩
      | autotap =>
        simp only [applyItem, ht]
        exact ⟨le_refl _, rfl⟩
    · show optBal (store k) ≤ optBal (if k = uid then _ else _) ∧
        optTon (if k = uid then _ else _) = optTon (store k)
      rw [if_neg hk]
      exact ⟨le_refl _, rfl⟩

set_option maxHeartbeats 1000000 in
/-- Helper: every `main.py` catalog amount is non-negative. -/
theorem M_SHOP_ITEMS_amount_nonneg (id : String) (it : Main.MShopItem)
    (h : Main.M_SHOP_ITEMS id = some it) : 0 ≤ it.amount := by
  unfold Main.M_SHOP_ITEMS at h
  split_ifs at h
  all_goals (obtain rfl := Option.some.inj h; decide)

/-- Helper: `register_user` never lowers any balance and never changes any
TON balance — it only ever grants (the 500 initial balance and the 5000
referral bonus to both sides). -/
theorem register_user_bal_ton_mono
    (now : Int) (db : Main.MStore) (uid username first_name : String)
    (referrer_id : Option String) (k : String) :
    mBal (db k) ≤ mBal ((register_user now db uid username first_name referrer_id).1 k) ∧
    mTon ((register_user now db uid username first_name referrer_id).1 k) = mTon (db k) := by
  unfold register_user
  cases hdb : db uid with
  | some u =>
    dsimp only
    by_cases hk : k = uid
    · subst hk
      rw [if_pos rfl, hdb]
      exact ⟨le_refl _, rfl⟩
    · rw [if_neg hk]
      exact ⟨le_refl _, rfl⟩
  | none =>
    dsimp only
    cases referrer_id with
    | none =>
      dsimp only
      by_cases hk : k = uid
      · subst hk
        rw [if_pos rfl, hdb]
        constructor
        · show (0 : ℚ) ≤ Main.INITIAL_BALANCE
          norm_num [Main.INITIAL_BALANCE]
        · rfl
      · rw [if_neg hk]
        exact ⟨le_refl _, rfl⟩
    | some rid =>
      dsimp only
      by_cases hc : rid ≠ "" ∧ rid ≠ uid ∧ (db rid).isSome
      · rw [if_pos hc]
        dsimp only
        by_cases hk : k = uid
        · subst hk
          rw [if_pos rfl, hdb]
          constructor
          · show (0 : ℚ) ≤ Main.INITIAL_BALANCE + Main.REFERRAL_BONUS
            norm_num [Main.INITIAL_BALANCE, Main.REFERRAL_BONUS]
          · rfl
        · rw [if_neg hk]
          by_cases hkr : k = rid
          · subst hkr
            rw [if_pos rfl]
            cases hr : db k with
            | none =>
              rw [hr] at hc
              simp at hc
            | some r =>
              constructor
              · show r.balance ≤ r.balance + Main.REFERRAL_BONUS
                exact le_add_of_nonneg_right (by norm_num [Main.REFERRAL_BONUS])
              · rfl
          · rw [if_neg hkr]
            exact ⟨le_refl _, rfl⟩
      · rw [if_neg hc]
        dsimp only
        by_cases hk : k = uid
        · subst hk
          rw [if_pos rfl, hdb]
          constructor
          · show (0 : ℚ) ≤ Main.INITIAL_BALANCE
            norm_num [Main.INITIAL_BALANCE]
          · rfl
        · rw [if_neg hk]
          exact ⟨le_refl _, rfl⟩

/-- Helper: `on_successful_payment` never lowers any balance (a coin pack
adds its non-negative amount; timed perks touch only expiry fields) and
never changes any TON balance. -/
theorem on_successful_payment_bal_ton_mono
    (now : Int) (db : Main.MStore) (user_id payload : String) (k : String) :
    mBal (db k) ≤ mBal (on_successful_payment now db user_id payload k) ∧
    mTon (on_successful_payment now db user_id payload k) = mTon (db k) := by
  unfold on_successful_payment
  cases hsp : Backend.splitOnce payload "_" with
  | none => exact ⟨le_refl _, rfl⟩
  | some pr =>
    dsimp only
    cases hit : Main.M_SHOP_ITEMS pr.2 with
    | none => exact ⟨le_refl _, rfl⟩
    | some item =>
      cases hdb : db user_id with
      | none => exact ⟨le_refl _, rfl⟩
      | some u =>
        by_cases hk : k = user_id
        · subst hk
          show mBal (db k) ≤ mBal (if k = k then _ else _) ∧
            mTon (if k = k then _ else _) = mTon (db k)
          rw [if_pos rfl, hdb]
          cases ht : item.type with
          | coin =>
            simp only [Main.applyPaidItem, ht]
            constructor
            · show u.balance ≤ u.balance + (item.amount : ℚ)
              have hamt := M_SHOP_ITEMS_amount_nonneg pr.2 item hit
              exact le_add_of_nonneg_right (by exact_mod_cast hamt)
            · rfl
          | booster =>
            simp only [Main.applyPaidItem, ht]
            exact ⟨le_refl _, rfl⟩
          | autotap =>
            simp only [Main.applyPaidItem, ht]
            exact ⟨le_refl _, rfl⟩
        · show mBal (db k) ≤ mBal (if k = user_id then _ else _) ∧
            mTon (if k = user_id then _ else _) = mTon (db k)
          rw [if_neg hk]
          exact ⟨le_refl _, rfl⟩

/-- C7 counterexample: the claim fails for the `/sync-user-data` operation
(`update_user_progress`): user `"1"` has balance 100, the client sends
balance 0, and the stored balance drops to 0 (the operation reports
success). -/
theorem update_user_progress_lowers_balance :
    ((mStoreRich "1").getD {}).balance = 100 ∧
    (((update_user_progress 50 mStoreRich "1" { balance := some 0 }).1 "1").getD
      {}).balance = 0 ∧
    (update_user_progress 50 mStoreRich "1" { balance := some 0 }).2 = true := by
  exact ⟨by decide, by decide, by decide⟩

/-- C7 (amended): `balance` and `tonBalance` (respectively
`secondaryBalance`) never decrease, at any id of the store, under the
balance-mutating operations embedded from the sources — `/sync_taps` (for a
non-negative claimed tap count on a record of non-negative level),
`/spin_wheel`, `update_user_perks`, `register_user`, and the
successful-payment application of `main.py` — all of which only ever grant;
the direct progress-sync operation `update_user_progress` is excluded,
since it overwrites balances with client-supplied values and can lower them
(and a negative claimed tap count would likewise lower the balance through
`/sync_taps`). -/
theorem balances_never_decrease
    (now : Int) (store : Backend.Store) (uid k : String) (taps : Int) (cf : Bool)
    (idx : Fin 8) (id : String) (db : Main.MStore)
    (username first_name payload : String) (referrer_id : Option String)
    (htaps : 0 ≤ taps) (hlvl : 0 ≤ ((store uid).getD {}).level.getD 1) :
    (optBal (store k) ≤ optBal ((sync_taps now store uid taps cf).2 k) ∧
     optTon ((sync_taps now store uid taps cf).2 k) = optTon (store k)) ∧
    (optBal ((spin_wheel_secure now store uid idx).2 k) = optBal (store k) ∧
     optTon (store k) ≤ optTon ((spin_wheel_secure now store uid idx).2 k)) ∧
    (optBal (store k) ≤ optBal ((update_user_perks now store uid id).1 k) ∧
     optTon ((update_user_perks now store uid id).1 k) = optTon (store k)) ∧
    (mBal (db k) ≤ mBal ((register_user now db uid username first_name referrer_id).1 k) ∧
     mTon ((register_user now db uid username first_name referrer_id).1 k) = mTon (db k)) ∧
    (mBal (db k) ≤ mBal (on_successful_payment now db uid payload k) ∧
     mTon (on_successful_payment now db uid payload k) = mTon (db k)) :=
  ⟨sync_taps_bal_ton_mono now store uid taps cf k htaps hlvl,
   spin_bal_ton_mono now store uid idx k,
   perks_bal_ton_mono now store uid id k,
   register_user_bal_ton_mono now db uid username first_name referrer_id k,
   on_successful_payment_bal_ton_mono now db uid payload k⟩

/-- Witness for `balances_never_decrease`: the present-referrer fixture and
the `main.py` referrer fixture at concrete arguments. -/
theorem balances_never_decrease_witness :
    (0 : Int) ≤ 5 ∧
    (0 : Int) ≤ ((storePresentReferrer "1").getD {}).level.getD 1 ∧
    ((optBal (storePresentReferrer "2") ≤
        optBal ((sync_taps 10 storePresentReferrer "1" 5 false).2 "2") ∧
      optTon ((sync_taps 10 storePresentReferrer "1" 5 false).2 "2") =
        optTon (storePresentReferrer "2")) ∧
    (optBal ((spin_wheel_secure 10 storePresentReferrer "1" 0).2 "2") =
        optBal (storePresentReferrer "2") ∧
      optTon (storePresentReferrer "2") ≤
        optTon ((spin_wheel_secure 10 storePresentReferrer "1" 0).2 "2")) ∧
    (optBal (storePresentReferrer "2") ≤
        optBal ((update_user_perks 10 storePresentReferrer "1" "coin_starter").1 "2") ∧
      optTon ((update_user_perks 10 storePresentReferrer "1" "coin_starter").1 "2") =
        optTon (storePresentReferrer "2")) ∧
    (mBal (mStoreReferrer "2") ≤
        mBal ((register_user 10 mStoreReferrer "1" "alice" "Alice" (some "9")).1 "2") ∧
      mTon ((register_user 10 mStoreReferrer "1" "alice" "Alice" (some "9")).1 "2") =
        mTon (mStoreReferrer "2")) ∧
    (mBal (mStoreReferrer "2") ≤
        mBal (on_successful_payment 10 mStoreReferrer "1" "1_coin_starter" "2") ∧
      mTon (on_successful_payment 10 mStoreReferrer "1" "1_coin_starter" "2") =
        mTon (mStoreReferrer "2"))) :=
  ⟨by decide, by decide,
   balances_never_decrease 10 storePresentReferrer "1" "2" 5 false 0 "coin_starter"
     mStoreReferrer "alice" "Alice" "1_coin_starter" (some "9")
     (by decide) (by decide)⟩

/-- Helper: the commission write changes no field other than `balance` of
any document. -/
theorem commissionStore_fields (store : Backend.Store) (rb : Option String)
    (E : Int) (cf : Bool) (k : String) :
    ((commissionStore store rb E cf k).getD {}).tonBalance = ((store k).getD {}).tonBalance ∧
    ((commissionStore store rb E cf k).getD {}).level = ((store k).getD {}).level ∧
    ((commissionStore store rb E cf k).getD {}).boosterEndTime =
      ((store k).getD {}).boosterEndTime ∧
    ((commissionStore store rb E cf k).getD {}).autotapEndTime =
      ((store k).getD {}).autotapEndTime ∧
    ((commissionStore store rb E cf k).getD {}).lastSpinTime =
      ((store k).getD {}).lastSpinTime ∧
    ((commissionStore store rb E cf k).getD {}).referredBy = ((store k).getD {}).referredBy := by
  cases rb with
  | none => exact ⟨rfl, rfl, rfl, rfl, rfl, rfl⟩
  | some rid =>
    by_cases h1 : rid ≠ "" ∧ E > 10
    · cases cf with
      | true =>
        rw [commissionStore_failed store rid E k]
        exact ⟨rfl, rfl, rfl, rfl, rfl, rfl⟩
      | false =>
        have hcpos : E / 10 > 0 := by
          have := h1.2
          omega
        have heq : commissionStore store (some rid) E false k =
            if k = rid then
              some { (store rid).getD {} with
                       balance := some (((store rid).getD {}).balance.getD 0 + E / 10) }
            else store k := by
          simp only [commissionStore]
          rw [if_pos h1, if_pos hcpos, if_neg (by decide : ¬ (false = true)),
            creditBalance_eq store rid (E / 10) k]
        rw [heq]
        by_cases hk : k = rid
        · rw [if_pos hk, hk]
          exact ⟨rfl, rfl, rfl, rfl, rfl, rfl⟩
        · rw [if_neg hk]
          exact ⟨rfl, rfl, rfl, rfl, rfl, rfl⟩
    · rw [commissionStore_skip store rid E cf k h1]
      exact ⟨rfl, rfl, rfl, rfl, rfl, rfl⟩

/-- C8: a failing (raised and swallowed) referral-commission side-write
changes nothing about the referee's own tap-sync: the response and the
referee's resulting document are identical to the case where the commission
write succeeds, for every request. -/
theorem commission_failure_isolated
    (now : Int) (store : Backend.Store) (uid : String) (taps : Int) :
    (sync_taps now store uid taps true).1 = (sync_taps now store uid taps false).1 ∧
    (sync_taps now store uid taps true).2 uid = (sync_taps now store uid taps false).2 uid := by
  cases hu : store uid with
  | none =>
    rw [sync_taps_notFound_eq now store uid taps true hu,
      sync_taps_notFound_eq now store uid taps false hu]
    exact ⟨rfl, rfl⟩
  | some u =>
    by_cases hcap : taps > tapCap now u
    · rw [sync_taps_reject_eq now store uid u taps true hu hcap,
        sync_taps_reject_eq now store uid u taps false hu hcap]
      exact ⟨rfl, rfl⟩
    · rw [sync_taps_accept_eq now store uid u taps true hu hcap,
        sync_taps_accept_eq now store uid u taps false hu hcap]
      refine ⟨rfl, ?_⟩
      show (if uid = uid then _ else _) = (if uid = uid then _ else _)
      rw [if_pos rfl, if_pos rfl]
      have hT := commissionStore_fields store u.referredBy
        (taps * u.level.getD 1 * tapMultiplier now u) true uid
      have hF := commissionStore_fields store u.referredBy
        (taps * u.level.getD 1 * tapMultiplier now u) false uid
      simp only [Option.some.injEq, Backend.BUser.mk.injEq, true_and, and_true]
      exact ⟨hT.1.trans hF.1.symm, hT.2.1.trans hF.2.1.symm,
        hT.2.2.1.trans hF.2.2.1.symm, hT.2.2.2.1.trans hF.2.2.2.1.symm,
        hT.2.2.2.2.1.trans hF.2.2.2.2.1.symm, hT.2.2.2.2.2.trans hF.2.2.2.2.2.symm⟩

/-- C9: the identity verifier is a total pure function (no store access,
never raises) that returns no identity when the `hash=` field is absent,
when the computed HMAC differs from the supplied hash, when the `user=`
field is absent, or when the embedded user JSON fails to parse; and returns
the parsed embedded identity exactly when every check passes. -/
theorem verify_telegram_data_spec {α : Type}
    (calcHash : String → String) (parseUser : String → Option α) (s : String) :
    ((pySplit s "&").find? (fun p => pyStartsWith p "hash=") = none →
      verify_telegram_data true calcHash parseUser s = none) ∧
    (∀ hp, (pySplit s "&").find? (fun p => pyStartsWith p "hash=") = some hp →
      calcHash (dataCheckString s) ≠ (pySplit hp "=").getD 1 "" →
      verify_telegram_data true calcHash parseUser s = none) ∧
    (∀ hp, (pySplit s "&").find? (fun p => pyStartsWith p "hash=") = some hp →
      calcHash (dataCheckString s) = (pySplit hp "=").getD 1 "" →
      (pySplit s "&").find? (fun p => pyStartsWith p "user=") = none →
      verify_telegram_data true calcHash parseUser s = none) ∧
    (∀ hp up, (pySplit s "&").find? (fun p => pyStartsWith p "hash=") = some hp →
      calcHash (dataCheckString s) = (pySplit hp "=").getD 1 "" →
      (pySplit s "&").find? (fun p => pyStartsWith p "user=") = some up →
      parseUser ((pySplit up "user=").getD 1 "") = none →
      verify_telegram_data true calcHash parseUser s = none) ∧
    (∀ hp up v, (pySplit s "&").find? (fun p => pyStartsWith p "hash=") = some hp →
      calcHash (dataCheckString s) = (pySplit hp "=").getD 1 "" →
      (pySplit s "&").find? (fun p => pyStartsWith p "user=") = some up →
      parseUser ((pySplit up "user=").getD 1 "") = some v →
      verify_telegram_data true calcHash parseUser s = some v) := by
  have hbt : ¬ (true = false) := by decide
  refine ⟨?_, ?_, ?_, ?_, ?_⟩
  · intro h
    unfold verify_telegram_data
    rw [if_neg hbt]
    dsimp only
    rw [h]
  · intro hp h hne
    unfold verify_telegram_data
    rw [if_neg hbt]
    dsimp only
    rw [h]
    dsimp only
    rw [if_pos hne]
  · intro hp h heq hu
    unfold verify_telegram_data
    rw [if_neg hbt]
    dsimp only
    rw [h]
    dsimp only
    rw [if_neg (not_not_intro heq), hu]
  · intro hp up h heq hu hpu
    unfold verify_telegram_data
    rw [if_neg hbt]
    dsimp only
    rw [h]
    dsimp only
    rw [if_neg (not_not_intro heq), hu]
    dsimp only
    rw [hpu]
  · intro hp up v h heq hu hpu
    unfold verify_telegram_data
    rw [if_neg hbt]
    dsimp only
    rw [h]
    dsimp only
    rw [if_neg (not_not_intro heq), hu]
    dsimp only
    rw [hpu]

/-- Witness for `verify_telegram_data_spec`: the payload
`auth=1&hash=h&user=u` with an HMAC oracle that returns `h` and a parser
that accepts `u`, yielding the parsed identity `7`. -/
theorem verify_telegram_data_spec_witness :
    (pySplit "auth=1&hash=h&user=u" "&").find? (fun p => pyStartsWith p "hash=") =
      some "hash=h" ∧
    (pySplit "auth=1&hash=h&user=u" "&").find? (fun p => pyStartsWith p "user=") =
      some "user=u" ∧
    (pySplit "user=u" "user=").getD 1 "" = "u" ∧
    verify_telegram_data true (fun _ => "h")
      (fun t => if t = "u" then some (7 : Nat) else none) "auth=1&hash=h&user=u" =
      some 7 :=
  ⟨by decide, by decide, by decide,
   (verify_telegram_data_spec (fun _ => "h")
       (fun t => if t = "u" then some (7 : Nat) else none)
       "auth=1&hash=h&user=u").2.2.2.2 "hash=h" "user=u" 7
     (by decide) (by decide) (by decide) (by decide)⟩

/-- C10: registering a new user with a supplied referrer id sets
`referredBy`, credits both sides with the 5000-coin bonus and appends the
new user to the referrer's `referrals` list exactly when the referrer id
differs from the new user's own id and exists in the store; otherwise
`referredBy` stays `None` and no record other than the new user's changes.
In particular the new user is never its own referrer.  (`db "" = none`
holds in the program, as every key is the decimal string of a numeric
platform id.) -/
theorem register_user_referral_spec
    (now : Int) (db : Main.MStore) (uid username first_name rid : String)
    (hnew : db uid = none) (hempty : db "" = none) :
    (register_user now db uid username first_name (some rid)).2 = true ∧
    (∃ nu, (register_user now db uid username first_name (some rid)).1 uid = some nu ∧
      nu.referredBy = (if rid ≠ uid ∧ (db rid).isSome then some rid else none) ∧
      nu.balance = Main.INITIAL_BALANCE +
        (if rid ≠ uid ∧ (db rid).isSome then Main.REFERRAL_BONUS else 0) ∧
      nu.referredBy ≠ some uid) ∧
    (∀ r, db rid = some r → rid ≠ uid →
      (register_user now db uid username first_name (some rid)).1 rid =
        some { r with balance := r.balance + Main.REFERRAL_BONUS,
                      referrals := r.referrals ++ [uid] }) ∧
    (¬ (rid ≠ uid ∧ (db rid).isSome) →
      ∀ k, k ≠ uid → (register_user now db uid username first_name (some rid)).1 k = db k) ∧
    (∀ k, k ≠ uid → k ≠ rid →
      (register_user now db uid username first_name (some rid)).1 k = db k) := by
  have hcond : (rid ≠ "" ∧ rid ≠ uid ∧ (db rid).isSome) ↔ (rid ≠ uid ∧ (db rid).isSome) := by
    constructor
    · rintro ⟨_, h2, h3⟩
      exact ⟨h2, h3⟩
    · rintro ⟨h2, h3⟩
      refine ⟨?_, h2, h3⟩
      intro he
      rw [he, hempty] at h3
      simp at h3
  unfold register_user
  rw [hnew]
  dsimp only
  by_cases hc : rid ≠ uid ∧ (db rid).isSome
  · rw [if_pos (hcond.mpr hc)]
    refine ⟨rfl, ?_, ?_, ?_, ?_⟩
    · refine ⟨{ username := username, first_name := first_name,
                balance := Main.INITIAL_BALANCE + Main.REFERRAL_BONUS,
                referredBy := some rid, joined_date := now, last_active := now },
        ?_, ?_, ?_, ?_⟩
      · show (if uid = uid then _ else _) = _
        rw [if_pos rfl]
      · show some rid = _
        rw [if_pos hc]
      · show Main.INITIAL_BALANCE + Main.REFERRAL_BONUS = _
        rw [if_pos hc]
      · show some rid ≠ some uid
        intro h
        exact hc.1 (Option.some.inj h)
    · intro r hr hne
      show (if rid = uid then _ else if rid = rid then _ else _) = _
      rw [if_neg hne, if_pos rfl, hr]
      rfl
    · intro hnc
      exact absurd hc hnc
    · intro k hk hkr
      show (if k = uid then _ else if k = rid then _ else _) = _
      rw [if_neg hk, if_neg hkr]
  · rw [if_neg (fun h => hc (hcond.mp h))]
    refine ⟨rfl, ?_, ?_, ?_, ?_⟩
    · refine ⟨{ username := username, first_name := first_name,
                joined_date := now, last_active := now }, ?_, ?_, ?_, ?_⟩
      · show (if uid = uid then _ else _) = _
        rw [if_pos rfl]
      · show (none : Option String) = _
        rw [if_neg hc]
      · show Main.INITIAL_BALANCE = _
        rw [if_neg hc, add_zero]
      · show (none : Option String) ≠ some uid
        intro h
        exact Option.noConfusion h
    · intro r hr hne
      refine absurd ⟨hne, ?_⟩ hc
      rw [hr]
      rfl
    · intro hnc k hk
      show (if k = uid then _ else _) = _
      rw [if_neg hk]
    · intro k hk hkr
      show (if k = uid then _ else _) = _
      rw [if_neg hk]

/-- Witness for `register_user_referral_spec`: new user `"7"` registering
with referrer `"9"` (balance 700) in `mStoreReferrer`. -/
theorem register_user_referral_spec_witness :
    mStoreReferrer "7" = none ∧ mStoreReferrer "" = none ∧
    ((register_user 5 mStoreReferrer "7" "alice" "Alice" (some "9")).2 = true ∧
    (∃ nu, (register_user 5 mStoreReferrer "7" "alice" "Alice" (some "9")).1 "7" = some nu ∧
      nu.referredBy = (if ("9" : String) ≠ "7" ∧ (mStoreReferrer "9").isSome
        then some "9" else none) ∧
      nu.balance = Main.INITIAL_BALANCE +
        (if ("9" : String) ≠ "7" ∧ (mStoreReferrer "9").isSome
         then Main.REFERRAL_BONUS else 0) ∧
      nu.referredBy ≠ some "7") ∧
    (∀ r, mStoreReferrer "9" = some r → ("9" : String) ≠ "7" →
      (register_user 5 mStoreReferrer "7" "alice" "Alice" (some "9")).1 "9" =
        some { r with balance := r.balance + Main.REFERRAL_BONUS,
                      referrals := r.referrals ++ ["7"] }) ∧
    (¬ (("9" : String) ≠ "7" ∧ (mStoreReferrer "9").isSome) →
      ∀ k, k ≠ "7" →
        (register_user 5 mStoreReferrer "7" "alice" "Alice" (some "9")).1 k =
          mStoreReferrer k) ∧
    (∀ k, k ≠ "7" → k ≠ "9" →
      (register_user 5 mStoreReferrer "7" "alice" "Alice" (some "9")).1 k =
        mStoreReferrer k)) :=
  ⟨rfl, rfl,
   register_user_referral_spec 5 mStoreReferrer "7" "alice" "Alice" "9" rfl rfl⟩

end Snowman
